import Mathlib

/-!
Verification of the hybrid game-search service: record normalization for the
two repack providers (FitGirl, DODI), the live Google Directory search
adapter, and the aggregation service (search, live search, database sync),
shallowly embedded from the TypeScript source.
-/

set_option maxRecDepth 4000

namespace PiratedGamesSearch

/-- JavaScript String.startsWith, modelled on the character list of the
string: the candidate head string is a list-prefix of the subject. -/
def jsStartsWith (s p : String) : Bool := p.data.isPrefixOf s.data

/-- Unreserved punctuation of JavaScript encodeURIComponent: the characters
hyphen, underscore, dot, bang, tilde, star, apostrophe (code 39), and the
two parentheses are never percent-encoded. -/
def uriMark (c : Char) : Bool :=
  c = Char.ofNat 45 || c = Char.ofNat 95 || c = Char.ofNat 46 ||
  c = Char.ofNat 33 || c = Char.ofNat 126 || c = Char.ofNat 42 ||
  c = Char.ofNat 39 || c = Char.ofNat 40 || c = Char.ofNat 41

/-- A character left verbatim by encodeURIComponent: ASCII letters and
digits, or one of the unreserved marks. -/
def uriUnescaped (c : Char) : Bool := c.isAlphanum || uriMark c

/-- Uppercase hexadecimal digit for a value below 16. -/
def hexUpper (n : Nat) : Char :=
  if n < 10 then Char.ofNat (48 + n) else Char.ofNat (55 + n)

/-- UTF-8 byte sequence of one character, as natural numbers. -/
def utf8Bytes (c : Char) : List Nat :=
  let n := c.toNat
  if n < 128 then [n]
  else if n < 2048 then [192 + n / 64, 128 + n % 64]
  else if n < 65536 then [224 + n / 4096, 128 + (n / 64) % 64, 128 + n % 64]
  else [240 + n / 262144, 128 + (n / 4096) % 64, 128 + (n / 64) % 64, 128 + n % 64]

/-- Percent-encoding of one byte: a percent sign followed by two uppercase
hexadecimal digits. -/
def pctEncodeByte (b : Nat) : String :=
  String.singleton (Char.ofNat 37) ++ String.singleton (hexUpper (b / 16))
    ++ String.singleton (hexUpper (b % 16))

/-- JavaScript encodeURIComponent: unreserved characters pass through,
every other character is percent-encoded byte by byte in UTF-8. -/
def encodeURIComponent (s : String) : String :=
  s.data.foldl
    (fun acc c =>
      if uriUnescaped c then acc.push c
      else acc ++ String.join ((utf8Bytes c).map pctEncodeByte))
    ""

/-- Raw record of a provider JSON document (one entry of the downloads
array), with the fields the provider code reads; a missing or null field is
none, and JavaScript falsiness of an empty string is handled at use sites. -/
structure RawItem where
  title : String
  link : Option String
  uris : Option (List String)
  fileSize : Option String
  uploadDate : Option String
deriving DecidableEq

/-- The loosely-typed listing object flowing through the service. The zod
GameSchema declares id, title, source, webpageUrl with size and uploadDate
optional; the Google adapter additionally attaches snippet and omits id,
size and uploadDate, so presence is tracked with Option. -/
structure Listing where
  id : Option String
  title : String
  source : String
  webpageUrl : String
  size : Option String
  uploadDate : Option String
  snippet : Option String
deriving DecidableEq

/-- The check of the zod GameSchema refinement on webpageUrl: it must start
with http or with the magnet scheme. -/
def webpageUrlValid (s : String) : Bool :=
  jsStartsWith s "http" || jsStartsWith s "magnet:"

/-- The check of SearchGameSchema on the query parameter q: a string of at
least one character. -/
def searchQueryValid (q : String) : Bool := decide (1 ≤ q.length)

/-- Static data of one repack provider: source label, the seed put in front
of the title for the md5 id (fitgirl- or dodi-), and the search-page URL
the fallback link is built from. -/
structure ProviderConfig where
  source : String
  idSeed : String
  searchBase : String
deriving DecidableEq

/-- The FitGirl provider constants. -/
def fitgirlConfig : ProviderConfig :=
  { source := "FitGirl", idSeed := "fitgirl-",
    searchBase := "https://fitgirl-repacks.site/?s=" }

/-- The DODI provider constants. -/
def dodiConfig : ProviderConfig :=
  { source := "DODI", idSeed := "dodi-",
    searchBase := "https://dodi-repacks.site/?s=" }

/-- The tier-3 fallback URL: the provider search page with the title
percent-encoded as query term. -/
def fallbackUrl (cfg : ProviderConfig) (title : String) : String :=
  cfg.searchBase ++ encodeURIComponent title

/-- Tiers 2 and 3 of the link resolution: the JavaScript expression
(item.uris && item.uris[0]) || fallback. A missing list, a missing first
entry, or a falsy (empty) first entry all yield the fallback. -/
def urisOrFallback (cfg : ProviderConfig) (item : RawItem) : String :=
  match item.uris with
  | none => fallbackUrl cfg item.title
  | some us =>
    match us.head? with
    | none => fallbackUrl cfg item.title
    | some u => if u = "" then fallbackUrl cfg item.title else u

/-- The pageUrl expression of both provider fetchers: a truthy link that
starts with http is used verbatim, anything else falls through to the uris
list or the fallback. -/
def resolvePageUrl (cfg : ProviderConfig) (item : RawItem) : String :=
  match item.link with
  | none => urisOrFallback cfg item
  | some l =>
    if l = "" then urisOrFallback cfg item
    else if jsStartsWith l "http" then l
    else urisOrFallback cfg item

/-- The object literal built for each raw item by FitGirlProvider.fetchGames
and DodiProvider.fetchGames. The md5 digest over the seeded title comes from
the external crypto library and is passed in as the function hash. -/
def normalizeItem (cfg : ProviderConfig) (hash : String → String)
    (item : RawItem) : Listing :=
  { id := some (hash (cfg.idSeed ++ item.title)),
    title := item.title,
    source := cfg.source,
    webpageUrl := resolvePageUrl cfg item,
    size := some (match item.fileSize with
      | none => "Unknown"
      | some s => if s = "" then "Unknown" else s),
    uploadDate := item.uploadDate,
    snippet := none }

/-- A provider fetchGames call: a transport error or a missing downloads
array is absorbed to the empty list, otherwise every raw item is
normalized. -/
def fetchGames (cfg : ProviderConfig) (hash : String → String)
    (outcome : Except String (Option (List RawItem))) : List Listing :=
  match outcome with
  | .error _ => []
  | .ok none => []
  | .ok (some items) => items.map (normalizeItem cfg hash)

/-- One hit of the Google custom-search response, with the four fields the
adapter reads. -/
structure GoogleItem where
  title : String
  link : String
  displayLink : String
  snippet : String
deriving DecidableEq

/-- The object literal built for each Google hit by
GoogleSearchProvider.fetchFromDirectory: no id, size or uploadDate, the
display link as source, and the snippet attached. -/
def googleListing (item : GoogleItem) : Listing :=
  { id := none,
    title := item.title,
    source := item.displayLink,
    webpageUrl := item.link,
    size := none,
    uploadDate := none,
    snippet := some item.snippet }

/-- GoogleSearchProvider.fetchFromDirectory over the upstream outcome: a
transport error is caught and absorbed to the empty list, a missing items
array becomes the empty list, and otherwise every hit is mapped. -/
def fetchFromDirectory
    (outcome : Except String (Option (List GoogleItem))) : List Listing :=
  match outcome with
  | .error _ => []
  | .ok none => []
  | .ok (some items) => items.map googleListing

/-- Modelled from the spec: the ServiceResponse envelope class lives outside
the given sources; per the Response Envelope contract it carries success,
message, data and statusCode, the success constructor setting success=true
and the failure constructor setting success=false. -/
structure ServiceResponse (α : Type) where
  success : Bool
  message : String
  responseObject : α
  statusCode : Nat
deriving DecidableEq

/-- Modelled from the spec: the static success constructor of
ServiceResponse. -/
def ServiceResponse.mkSuccess (msg : String) (obj : α) (code : Nat) :
    ServiceResponse α :=
  { success := true, message := msg, responseObject := obj, statusCode := code }

/-- Modelled from the spec: the static failure constructor of
ServiceResponse. -/
def ServiceResponse.mkFailure (msg : String) (obj : α) (code : Nat) :
    ServiceResponse α :=
  { success := false, message := msg, responseObject := obj, statusCode := code }

/-- GameService.searchGames over the repository outcome: hits are wrapped in
a 200 success envelope, a repository error becomes a 500 failure
envelope. -/
def searchGames (repoOutcome : Except String (List Listing)) :
    ServiceResponse (List Listing) :=
  match repoOutcome with
  | .ok games => ServiceResponse.mkSuccess "Games found" games 200
  | .error msg =>
    ServiceResponse.mkFailure ("Failed to search games: " ++ msg) [] 500

/-- Modelled from the spec: the request-validation middleware sits outside
the given sources; it applies SearchGameSchema to the query and rejects
with statusCode 400 before the handler runs. The second component counts
how often the repository adapter is invoked for the request. -/
def searchIndexedEndpoint (q : String)
    (repoOutcome : Except String (List Listing)) :
    ServiceResponse (List Listing) × Nat :=
  if searchQueryValid q then (searchGames repoOutcome, 1)
  else (ServiceResponse.mkFailure "Search query is required" [] 400, 0)

/-- GameService.searchGamesFromGoogle over the adapter result: an adapter
throw becomes a 500 failure envelope, an empty collection a 404 failure
envelope, and a non-empty collection a 200 success envelope. -/
def searchGamesFromGoogle (adapterResult : Except String (List Listing)) :
    ServiceResponse (List Listing) :=
  match adapterResult with
  | .error msg =>
    ServiceResponse.mkFailure ("Google Directory search failed: " ++ msg) [] 500
  | .ok games =>
    if games.length = 0 then
      ServiceResponse.mkFailure "No games found in Google Directory" [] 404
    else
      ServiceResponse.mkSuccess "Games found from Google Directory" games 200

/-- The full live-search path: the adapter never throws, since
fetchFromDirectory catches internally, so the service always receives an ok
collection. -/
def searchLive (upstream : Except String (Option (List GoogleItem))) :
    ServiceResponse (List Listing) :=
  searchGamesFromGoogle (Except.ok (fetchFromDirectory upstream))

/-- GameService.syncDatabase over the collections the two provider fetchers
returned and the outcome of the repository saveBatch call. The second
component records the batches passed to saveBatch, in order. -/
def syncDatabase (providerResults : List (List Listing))
    (upsertOutcome : Except String Unit) :
    ServiceResponse (Option Unit) × List (List Listing) :=
  let allGames := providerResults.flatten
  if allGames.length = 0 then
    (ServiceResponse.mkFailure "No games fetched from external providers"
      none 502, [])
  else
    match upsertOutcome with
    | .ok _ =>
      (ServiceResponse.mkSuccess
        ("Successfully synced " ++ toString allGames.length ++ " games")
        none 200, [allGames])
    | .error msg =>
      (ServiceResponse.mkFailure ("Sync failed: " ++ msg) none 500, [allGames])

/-- Modelled from the spec: the indexed store is an external system and
saveBatch upserts keyed by id, replacing a record with a matching id and
appending a new one otherwise. -/
def upsertBatch (store : List Listing) (batch : List Listing) : List Listing :=
  batch.foldl
    (fun st g =>
      if st.any (fun x => x.id = g.id) then
        st.map (fun x => if x.id = g.id then g else x)
      else st ++ [g])
    store

/-- Modelled from the spec: the store content after a sequence of saveBatch
calls. -/
def applyBatches (store : List Listing) (batches : List (List Listing)) :
    List Listing :=
  batches.foldl upsertBatch store

/-- A concrete listing, shaped like the repository test fixture, used as a
sample record in witnesses. -/
def sampleListing : Listing :=
  { id := some "meili-game-1", title := "Traditional Game", source := "FitGirl",
    webpageUrl := "https://fitgirl-repacks.site/traditional-game/",
    size := some "10 GB", uploadDate := some "2023-01-01T00:00:00.000Z",
    snippet := none }

/-- A concrete Google hit, shaped like the repository test fixture, used in
witnesses. -/
def sampleHit : GoogleItem :=
  { title := "Google Game", link := "https://fitgirl-repacks.site/google-game/",
    displayLink := "fitgirl-repacks.site",
    snippet := "A game found via Google Directory" }

/-- Extending a string on the right preserves any head it starts with. -/
theorem jsStartsWith_append (a b p : String) (h : jsStartsWith a p = true) :
    jsStartsWith (a ++ b) p = true := by
  unfold jsStartsWith at h ⊢
  rw [List.isPrefixOf_iff_prefix] at h ⊢
  rw [String.data_append]
  exact h.trans (List.prefix_append a.data b.data)

/-- Two strings differ when exactly one of them starts with http. -/
theorem ne_of_jsStartsWith_http (s t : String)
    (hs : jsStartsWith s "http" = true) (ht : jsStartsWith t "http" = false) :
    s ≠ t := by
  intro h
  subst h
  rw [hs] at ht
  cases ht

/-- A string starting with http is not the empty string. -/
theorem ne_empty_of_jsStartsWith_http (s : String)
    (hs : jsStartsWith s "http" = true) : s ≠ "" := by
  intro h
  subst h
  exact absurd hs (by decide)

end PiratedGamesSearch

namespace PiratedGamesSearch

/-- C1: the spec invariant that every produced accessUrl is an HTTP(S) URL
or a magnet-style URI is broken by the code: a raw record with no direct
link whose first alternative URI has a different scheme (here ftp) is
normalized with that URI verbatim as webpageUrl, violating the zod
GameSchema refinement declared in the same codebase. -/
theorem c1_accessUrl_scheme_violation :
    (normalizeItem fitgirlConfig id
      { title := "Some Game", link := none,
        uris := some ["ftp://evil.example/file"],
        fileSize := some "1 GB", uploadDate := none }).webpageUrl
      = "ftp://evil.example/file" ∧
    webpageUrlValid
      ((normalizeItem fitgirlConfig id
        { title := "Some Game", link := none,
          uris := some ["ftp://evil.example/file"],
          fileSize := some "1 GB", uploadDate := none }).webpageUrl) = false := by
  decide

/-- C2: a raw record whose direct link is non-empty and starts with http is
normalized with that link verbatim as accessUrl (tier 1). -/
theorem c2_tier1_direct_link (cfg : ProviderConfig) (hash : String → String)
    (item : RawItem) (l : String) (hl : item.link = some l) (hne : l ≠ "")
    (hhttp : jsStartsWith l "http" = true) :
    (normalizeItem cfg hash item).webpageUrl = l := by
  simp [normalizeItem, resolvePageUrl, hl, hne, hhttp]

theorem c2_tier1_witness :
    (normalizeItem fitgirlConfig id
      { title := "Test Game",
        link := some "https://fitgirl-repacks.site/test-game/",
        uris := some ["magnet:?xt=urn:btih:abc123"],
        fileSize := some "10 GB", uploadDate := some "2023-01-01" }).webpageUrl
      = "https://fitgirl-repacks.site/test-game/" :=
  c2_tier1_direct_link fitgirlConfig id _ _ rfl (by decide) (by decide)

/-- C3 counterexample: a record with no direct link and the non-empty
alternative-URI list whose first entry is the empty string is normalized to
the tier-3 fallback, not to that first entry, refuting the claim as
stated. -/
theorem c3_counterexample :
    (normalizeItem fitgirlConfig id
      { title := "T", link := none, uris := some [""],
        fileSize := none, uploadDate := none }).webpageUrl
      = "https://fitgirl-repacks.site/?s=T" ∧
    (normalizeItem fitgirlConfig id
      { title := "T", link := none, uris := some [""],
        fileSize := none, uploadDate := none }).webpageUrl ≠ "" := by
  decide

/-- C3 amended: a raw record without a non-empty http direct link whose
alternative-URI list has a non-empty first entry is normalized with that
first entry verbatim as accessUrl, even when it is a magnet URI; an empty
first entry instead falls through to the tier-3 fallback. -/
theorem c3_tier2_first_uri (cfg : ProviderConfig) (hash : String → String)
    (item : RawItem)
    (hlink : ∀ l, item.link = some l → l = "" ∨ jsStartsWith l "http" = false)
    (us : List String) (huris : item.uris = some us)
    (u : String) (hu : us.head? = some u) (hne : u ≠ "") :
    (normalizeItem cfg hash item).webpageUrl = u := by
  have hfall : urisOrFallback cfg item = u := by
    simp [urisOrFallback, huris, hu, hne]
  cases hL : item.link with
  | none => simp [normalizeItem, resolvePageUrl, hL, hfall]
  | some l =>
    by_cases hl0 : l = ""
    · simp [normalizeItem, resolvePageUrl, hL, hl0, hfall]
    · rcases hlink l hL with h | h
      · exact absurd h hl0
      · simp [normalizeItem, resolvePageUrl, hL, hl0, h, hfall]

theorem c3_tier2_witness :
    (normalizeItem fitgirlConfig id
      { title := "Game Without Direct Link", link := none,
        uris := some ["magnet:?xt=urn:btih:def456", "https://other.com/f.zip"],
        fileSize := none, uploadDate := none }).webpageUrl
      = "magnet:?xt=urn:btih:def456" :=
  c3_tier2_first_uri fitgirlConfig id
    { title := "Game Without Direct Link", link := none,
      uris := some ["magnet:?xt=urn:btih:def456", "https://other.com/f.zip"],
      fileSize := none, uploadDate := none }
    (by intro l h; cases h)
    ["magnet:?xt=urn:btih:def456", "https://other.com/f.zip"] rfl
    "magnet:?xt=urn:btih:def456" rfl (by decide)

/-- C4: a raw record with neither a non-empty http direct link nor a
non-empty alternative-URI list is normalized to the provider search page
with the title percent-encoded, and when the search base itself starts with
http, a non-http direct link can never be the produced accessUrl. -/
theorem c4_tier3_fallback (cfg : ProviderConfig) (hash : String → String)
    (item : RawItem)
    (hlink : ∀ l, item.link = some l → l = "" ∨ jsStartsWith l "http" = false)
    (huris : item.uris = none ∨ item.uris = some []) :
    (normalizeItem cfg hash item).webpageUrl
      = cfg.searchBase ++ encodeURIComponent item.title ∧
    (jsStartsWith cfg.searchBase "http" = true →
      ∀ l, item.link = some l →
        (normalizeItem cfg hash item).webpageUrl ≠ l) := by
  have hfall : urisOrFallback cfg item
      = cfg.searchBase ++ encodeURIComponent item.title := by
    rcases huris with h | h <;> simp [urisOrFallback, h, fallbackUrl]
  have hmain : (normalizeItem cfg hash item).webpageUrl
      = cfg.searchBase ++ encodeURIComponent item.title := by
    cases hL : item.link with
    | none => simp [normalizeItem, resolvePageUrl, hL, hfall]
    | some l =>
      by_cases hl0 : l = ""
      · simp [normalizeItem, resolvePageUrl, hL, hl0, hfall]
      · rcases hlink l hL with h | h
        · exact absurd h hl0
        · simp [normalizeItem, resolvePageUrl, hL, hl0, h, hfall]
  refine ⟨hmain, fun hbase l hL => ?_⟩
  rw [hmain]
  have hstart : jsStartsWith (cfg.searchBase ++ encodeURIComponent item.title)
      "http" = true := jsStartsWith_append _ _ _ hbase
  rcases hlink l hL with h | h
  · subst h
    exact ne_empty_of_jsStartsWith_http _ hstart
  · exact ne_of_jsStartsWith_http _ _ hstart h

theorem c4_tier3_witness :
    (normalizeItem fitgirlConfig id
      { title := "Game With Bad Link", link := some "ftp://x.com/f",
        uris := some [], fileSize := none, uploadDate := none }).webpageUrl
      = "https://fitgirl-repacks.site/?s=Game%20With%20Bad%20Link" ∧
    (normalizeItem fitgirlConfig id
      { title := "Game With Bad Link", link := some "ftp://x.com/f",
        uris := some [], fileSize := none, uploadDate := none }).webpageUrl
      ≠ "ftp://x.com/f" := by
  have h := c4_tier3_fallback fitgirlConfig id
    { title := "Game With Bad Link", link := some "ftp://x.com/f",
      uris := some [], fileSize := none, uploadDate := none }
    (by intro l hl; injection hl with h2; subst h2; exact Or.inr (by decide))
    (Or.inr rfl)
  refine ⟨?_, h.2 (by decide) _ rfl⟩
  rw [h.1]
  decide

/-- C5 counterexample: a transport failure of the upstream web-search call
is absorbed by the adapter into an empty collection, so the live-search
envelope carries statusCode 404, not the claimed 500. -/
theorem c5_counterexample :
    (searchLive (Except.error "ECONNRESET")).statusCode = 404 ∧
    ¬ (searchLive (Except.error "ECONNRESET")).statusCode = 500 := by
  decide

/-- C5 amended: every upstream transport failure of the live search is
absorbed to an empty collection by the adapter catch-all and therefore
surfaces as the same success=false, statusCode=404 not-found envelope as an
empty result set; the 500 branch of the service fires only if the adapter
call itself throws, which the catch-all prevents. -/
theorem c5_transport_failure_absorbed (e : String) :
    searchLive (Except.error e)
      = ServiceResponse.mkFailure "No games found in Google Directory" []
          404 := by
  rfl

theorem c5_transport_failure_witness :
    searchLive (Except.error "socket hang up")
      = ServiceResponse.mkFailure "No games found in Google Directory" []
          404 :=
  c5_transport_failure_absorbed "socket hang up"

/-- C6: with zero upstream hits the live search returns the success=false,
statusCode=404 envelope; with at least one hit it returns success=true and
statusCode=200, and every returned listing carries a snippet and no id,
size or uploadDate. -/
theorem c6_searchLive_hits (items : List GoogleItem) :
    (items = [] →
      searchLive (Except.ok (some items))
        = ServiceResponse.mkFailure "No games found in Google Directory" []
            404) ∧
    (items ≠ [] →
      (searchLive (Except.ok (some items))).success = true ∧
      (searchLive (Except.ok (some items))).statusCode = 200 ∧
      ∀ g ∈ (searchLive (Except.ok (some items))).responseObject,
        g.snippet.isSome = true ∧ g.id = none ∧ g.size = none ∧
          g.uploadDate = none) := by
  constructor
  · intro h
    subst h
    rfl
  · intro h
    have hlen : ¬ (items.map googleListing).length = 0 := by
      simp [List.length_eq_zero]
      exact h
    have hred : searchLive (Except.ok (some items))
        = ServiceResponse.mkSuccess "Games found from Google Directory"
            (items.map googleListing) 200 := by
      show (if (items.map googleListing).length = 0 then
          ServiceResponse.mkFailure "No games found in Google Directory" [] 404
        else
          ServiceResponse.mkSuccess "Games found from Google Directory"
            (items.map googleListing) 200) = _
      rw [if_neg hlen]
    rw [hred]
    refine ⟨rfl, rfl, fun g hg => ?_⟩
    simp only [ServiceResponse.mkSuccess, List.mem_map] at hg
    obtain ⟨it, -, rfl⟩ := hg
    exact ⟨rfl, rfl, rfl, rfl⟩

theorem c6_searchLive_witness :
    (searchLive (Except.ok (some [sampleHit]))).statusCode = 200 ∧
    (searchLive (Except.ok (some [sampleHit]))).success = true ∧
    (searchLive (Except.ok (some ([] : List GoogleItem)))).statusCode
      = 404 := by
  refine ⟨((c6_searchLive_hits [sampleHit]).2 (by decide)).2.1,
    ((c6_searchLive_hits [sampleHit]).2 (by decide)).1, ?_⟩
  rw [(c6_searchLive_hits []).1 rfl]
  rfl

/-- C7: the empty query string is rejected by the SearchGameSchema
validation with a success=false, statusCode=400 envelope, and the
repository adapter is never invoked for that request, whatever it would
have returned. -/
theorem c7_empty_query_validation (repoOutcome : Except String (List Listing)) :
    (searchIndexedEndpoint "" repoOutcome).1.statusCode = 400 ∧
    (searchIndexedEndpoint "" repoOutcome).1.success = false ∧
    (searchIndexedEndpoint "" repoOutcome).2 = 0 :=
  ⟨rfl, rfl, rfl⟩

theorem c7_empty_query_witness :
    (searchIndexedEndpoint "" (Except.ok [sampleListing])).1.statusCode
      = 400 ∧
    (searchIndexedEndpoint "" (Except.ok [sampleListing])).1.success
      = false ∧
    (searchIndexedEndpoint "" (Except.ok [sampleListing])).2 = 0 :=
  c7_empty_query_validation (Except.ok [sampleListing])

/-- C8: when every provider fetcher returns an empty collection, the sync
returns the success=false, statusCode=502 envelope, saveBatch receives no
batch at all, and the store content is unchanged. -/
theorem c8_all_empty_sync (rs : List (List Listing))
    (u : Except String Unit) (store : List Listing)
    (h : ∀ r ∈ rs, r = []) :
    (syncDatabase rs u).1.statusCode = 502 ∧
    (syncDatabase rs u).1.success = false ∧
    (syncDatabase rs u).2 = [] ∧
    applyBatches store (syncDatabase rs u).2 = store := by
  have hflat : rs.flatten = [] := List.flatten_eq_nil_iff.mpr h
  have hred : syncDatabase rs u
      = (ServiceResponse.mkFailure "No games fetched from external providers"
          none 502, []) := by
    simp [syncDatabase, hflat]
  rw [hred]
  exact ⟨rfl, rfl, rfl, rfl⟩

theorem c8_all_empty_witness :
    (syncDatabase [[], []] (Except.ok ())).1.statusCode = 502 ∧
    (syncDatabase [[], []] (Except.ok ())).1.success = false ∧
    (syncDatabase [[], []] (Except.ok ())).2 = [] ∧
    applyBatches [sampleListing] (syncDatabase [[], []] (Except.ok ())).2
      = [sampleListing] :=
  c8_all_empty_sync [[], []] (Except.ok ()) [sampleListing] (by decide)

/-- C9: when at least one provider fetcher returns a non-empty collection,
the sync calls saveBatch exactly once with the concatenation of all
provider listings; a successful upsert yields the success=true,
statusCode=200 envelope whose message carries the count of synced records,
and a failing upsert yields statusCode=500 instead. -/
theorem c9_sync_upsert_once (rs : List (List Listing))
    (h : ∃ r ∈ rs, r ≠ []) :
    (syncDatabase rs (Except.ok ())).2 = [rs.flatten] ∧
    (syncDatabase rs (Except.ok ())).1
      = ServiceResponse.mkSuccess
          ("Successfully synced " ++ toString rs.flatten.length ++ " games")
          none 200 ∧
    (∀ e, (syncDatabase rs (Except.error e)).1.statusCode = 500 ∧
      (syncDatabase rs (Except.error e)).1.success = false ∧
      (syncDatabase rs (Except.error e)).2 = [rs.flatten]) := by
  have hflat : rs.flatten ≠ [] := by
    intro hf
    obtain ⟨r, hr, hne⟩ := h
    exact hne (List.flatten_eq_nil_iff.mp hf r hr)
  have hlen : ¬ rs.flatten.length = 0 := fun h0 =>
    hflat (List.length_eq_zero.mp h0)
  have hok : syncDatabase rs (Except.ok ())
      = (ServiceResponse.mkSuccess
          ("Successfully synced " ++ toString rs.flatten.length ++ " games")
          none 200, [rs.flatten]) := by
    show (if rs.flatten.length = 0 then
        (ServiceResponse.mkFailure "No games fetched from external providers"
          none 502, [])
      else
        (ServiceResponse.mkSuccess
          ("Successfully synced " ++ toString rs.flatten.length ++ " games")
          none 200, [rs.flatten])) = _
    rw [if_neg hlen]
  have herr : ∀ e, syncDatabase rs (Except.error e)
      = (ServiceResponse.mkFailure ("Sync failed: " ++ e) none 500,
         [rs.flatten]) := by
    intro e
    show (if rs.flatten.length = 0 then
        (ServiceResponse.mkFailure "No games fetched from external providers"
          none 502, [])
      else
        (ServiceResponse.mkFailure ("Sync failed: " ++ e) none 500,
         [rs.flatten])) = _
    rw [if_neg hlen]
  refine ⟨by rw [hok], by rw [hok], fun e => ⟨?_, ?_, ?_⟩⟩ <;> rw [herr e]
    <;> rfl

theorem c9_sync_witness :
    (syncDatabase [[sampleListing], []] (Except.ok ())).2
      = [[sampleListing]] ∧
    (syncDatabase [[sampleListing], []] (Except.ok ())).1.statusCode = 200 ∧
    (syncDatabase [[sampleListing], []] (Except.ok ())).1.success = true ∧
    (syncDatabase [[sampleListing], []] (Except.ok ())).1.message
      = "Successfully synced 1 games" ∧
    (syncDatabase [[sampleListing], []] (Except.error "boom")).1.statusCode
      = 500 := by
  have h := c9_sync_upsert_once [[sampleListing], []]
    ⟨[sampleListing], by decide, by decide⟩
  refine ⟨h.1, ?_, ?_, ?_, (h.2.2 "boom").1⟩ <;> rw [h.2.1] <;> rfl

/-- C10: every provider-normalized listing carries a size: the raw fileSize
when that field is present and non-empty, and the literal string Unknown
when it is missing or empty. -/
theorem c10_size_always_present (cfg : ProviderConfig)
    (hash : String → String) (item : RawItem) :
    ((normalizeItem cfg hash item).size).isSome = true ∧
    (∀ s, item.fileSize = some s → s ≠ "" →
      (normalizeItem cfg hash item).size = some s) ∧
    ((item.fileSize = none ∨ item.fileSize = some "") →
      (normalizeItem cfg hash item).size = some "Unknown") := by
  refine ⟨?_, ?_, ?_⟩
  · cases hf : item.fileSize with
    | none => simp [normalizeItem, hf]
    | some s => by_cases h0 : s = "" <;> simp [normalizeItem, hf, h0]
  · intro s hs hne
    simp [normalizeItem, hs, hne]
  · rintro (hf | hf) <;> simp [normalizeItem, hf]

theorem c10_size_witness :
    (normalizeItem dodiConfig id
      { title := "A", link := none, uris := none, fileSize := some "65.8 GB",
        uploadDate := none }).size = some "65.8 GB" ∧
    (normalizeItem dodiConfig id
      { title := "B", link := none, uris := none, fileSize := none,
        uploadDate := none }).size = some "Unknown" :=
  ⟨(c10_size_always_present dodiConfig id
      { title := "A", link := none, uris := none, fileSize := some "65.8 GB",
        uploadDate := none }).2.1 "65.8 GB" rfl (by decide),
   (c10_size_always_present dodiConfig id
      { title := "B", link := none, uris := none, fileSize := none,
        uploadDate := none }).2.2 (Or.inl rfl)⟩

end PiratedGamesSearch
